import Mathlib

/-
Shallow embedding of the catalog backend's transactional engine
(controllers and models of the APIProject repository) together with
proofs about its cascade deletes, compound creates, partial-update
builders, lookup pagination and existence checks.

Machine model: the relational store is a record of row lists, the image
store a list of (folder, key) pairs.  A controller call is a function
from an initial `World` to an `Outcome`: a result code, the final world,
and the trace of backend commands and artifact operations it performed.
Transaction semantics (BEGIN / COMMIT / ROLLBACK) are modelled by
working on a copy of the database and only installing it into the world
when COMMIT succeeds; image-store operations apply to the world
immediately, mirroring the non-transactional filesystem.  Backend
failures are injected through an optional command index `inj`: the
`inj`-th transactional command (0-based, BEGIN included, COMMIT
included) raises a backend error.
-/

namespace Catalog

/-- a value bound to a SQL parameter placeholder -/
inductive Value
  | nat (n : Nat)
  | str (s : String)
  deriving DecidableEq, Repr

/-- row of table video_game -/
structure VideoGame where
  id : Nat
  name : String
  description : String
  deriving DecidableEq, Repr

/-- row of table publication -/
structure Publication where
  id : Nat
  platformCode : String
  videoGameId : Nat
  deriving DecidableEq, Repr

/-- row of table game (one user's ownership of one publication) -/
structure Game where
  userId : Nat
  publicationId : Nat
  deriving DecidableEq, Repr

/-- join row of the category / video_game many-to-many link -/
structure CategoryLink where
  categoryId : Nat
  videoGameId : Nat
  deriving DecidableEq, Repr

/-- row of table platform -/
structure Platform where
  code : String
  description : String
  abbreviation : String
  deriving DecidableEq, Repr

/-- row of table user -/
structure User where
  id : Nat
  username : String
  email : String
  isAdmin : Bool
  deriving DecidableEq, Repr

/-- the relational store -/
structure DB where
  videoGames : List VideoGame
  publications : List Publication
  games : List Game
  categoryLinks : List CategoryLink
  platforms : List Platform
  users : List User
  deriving DecidableEq, Repr

/-- the image store: (folder, key) pairs -/
structure FS where
  images : List (String × String)
  deriving DecidableEq, Repr

/-- committed database plus filesystem -/
structure World where
  db : DB
  fs : FS
  deriving DecidableEq, Repr

/-- backend commands and artifact operations, in issue order -/
inductive Ev
  | evRead (q : String)
  | evBegin
  | evDelGamesByPub (pubId : Nat)
  | evDelPub (pubId : Nat)
  | evDelCatsByVG (vgId : Nat)
  | evDelVG (vgId : Nat)
  | evDelGamesByUser (userId : Nat)
  | evDelUser (userId : Nat)
  | evDelPlatform (code : String)
  | evInsPlatform (code : String)
  | evInsVG (name : String)
  | evInsPub (code : String) (vgId : Nat)
  | evCommit
  | evRollback
  | evImgWrite (folder key : String)
  | evImgDelete (folder key : String)
  deriving DecidableEq, Repr

/-- result taxonomy as surfaced by the controllers -/
inductive Res
  | created
  | noContent
  | notFound
  | badRequest
  | conflict
  | deleteForbidden
  | internalError
  deriving DecidableEq, Repr

/-- result of one controller call -/
structure Outcome where
  result : Res
  world : World
  trace : List Ev
  deriving DecidableEq, Repr

/-! ## Leaf model operations

Single-statement model functions.  Those whose source file is present
under src are translated from it; the remaining ones are routine
one-statement operations reconstructed from the spec's data model and
marked `Modelled from the spec`. -/

/-- publications of one video game (PublicationModel.getPublication
called with a videoGameId, as in the deleteVideoGame controller).
Modelled from the spec: the publication model file is absent from src;
per the data model a Publication references its VideoGame through
video_game_id. -/
def pubsOfVideoGame (db : DB) (vgId : Nat) : List Publication :=
  db.publications.filter (fun p => p.videoGameId == vgId)

/-- publications of one platform (PublicationModel.getPublication called
with a platformCode, as in the deletePlatform controller).
Modelled from the spec: the publication model file is absent from src;
per the data model a Publication references its Platform through
platform_code. -/
def pubsOfPlatform (db : DB) (code : String) : List Publication :=
  db.publications.filter (fun p => p.platformCode == code)

/-- GameModel.deleteGamesFromPublication.  Modelled from the spec: the
game model file is absent from src; it deletes every Game row
referencing the publication. -/
def delGamesByPub (db : DB) (pubId : Nat) : DB :=
  { db with games := db.games.filter (fun g => g.publicationId != pubId) }

/-- PublicationModel.deletePublication.  Modelled from the spec: the
publication model file is absent from src; it deletes the publication
row by id. -/
def delPubById (db : DB) (pubId : Nat) : DB :=
  { db with publications := db.publications.filter (fun p => p.id != pubId) }

/-- CategoryModel.deleteCategoriesFromVideoGame.  Modelled from the
spec: the category model file is absent from src; it deletes every
category join row of the video game. -/
def delCatsByVG (db : DB) (vgId : Nat) : DB :=
  { db with categoryLinks := db.categoryLinks.filter (fun c => c.videoGameId != vgId) }

/-- VideoGameModel.deleteVideoGame (src part_003): DELETE FROM
video_game WHERE id = $1. -/
def delVGById (db : DB) (vgId : Nat) : DB :=
  { db with videoGames := db.videoGames.filter (fun v => v.id != vgId) }

/-- PlatformModel.deletePlatform.  Modelled from the spec: the platform
model file is absent from src; it deletes the platform row by its code
and reports the rows-affected count. -/
def delPlatformByCode (db : DB) (code : String) : DB × Nat :=
  ({ db with platforms := db.platforms.filter (fun p => p.code != code) },
   db.platforms.countP (fun p => p.code == code))

/-- GameModel.deleteGamesFromUser.  Modelled from the spec: the game
model file is absent from src; deleting a non-admin user cascades only
through Game rows owned by that user. -/
def delGamesByUser (db : DB) (userId : Nat) : DB :=
  { db with games := db.games.filter (fun g => g.userId != userId) }

/-- UserDB.deleteUser (src part_004): DELETE FROM "user" WHERE id = $1,
returning the rows-affected count. -/
def delUserById (db : DB) (userId : Nat) : DB × Nat :=
  ({ db with users := db.users.filter (fun u => u.id != userId) },
   db.users.countP (fun u => u.id == userId))

/-- UserDB.isAdmin (src part_004): count of rows with this id and
is_admin = true, compared against zero. -/
def isAdminB (db : DB) (userId : Nat) : Bool :=
  db.users.countP (fun u => u.id == userId && u.isAdmin) > 0

/-- row-existence helper for the video_game table -/
def videoGameExistsB (db : DB) (vgId : Nat) : Bool :=
  db.videoGames.any (fun v => v.id == vgId)

/-- row-existence helper for the platform table -/
def platformExistsB (db : DB) (code : String) : Bool :=
  db.platforms.any (fun p => p.code == code)

/-- row-existence helper for the user table -/
def userExistsB (db : DB) (userId : Nat) : Bool :=
  db.users.any (fun u => u.id == userId)

/-- referential integrity of the store: every publication references an
existing video game and an existing platform, every game an existing
publication -/
def fkConsistentB (db : DB) : Bool :=
  db.publications.all
      (fun p => videoGameExistsB db p.videoGameId && platformExistsB db p.platformCode) &&
    db.games.all (fun g => db.publications.any (fun p => p.id == g.publicationId))

/-- delete an image artifact (imageManager.deleteImage) -/
def fsDelete (fs : FS) (folder key : String) : FS :=
  { images := fs.images.filter (fun i => !(i.1 == folder && i.2 == key)) }

/-- destination folder of platform images (src part_006) -/
def destFolderPlatform : String := "pictures/platform"

/-- destination folder of video game images (src part_006) -/
def destFolderVideoGame : String := "pictures/videoGame"

/-! ## Cascade loop

Both delete cascades run the same per-publication loop (controllers in
src part_000 and part_006): for each publication, delete the games
referencing it, then the publication itself.  `inj` injects a backend
error at the given transactional command index, `k` is the index of the
next command; on failure the partial trace of the commands that did run
is returned. -/

/-- per-publication cascade loop shared by deleteVideoGame and
deletePlatform -/
def cascadePubs (inj : Option Nat) : Nat → DB → List Publication →
    Except (List Ev) (DB × Nat × List Ev)
  | k, db, [] => Except.ok (db, k, [])
  | k, db, p :: ps =>
    if inj == some k then Except.error []
    else
      let db1 := delGamesByPub db p.id
      if inj == some (k + 1) then Except.error [Ev.evDelGamesByPub p.id]
      else
        let db2 := delPubById db1 p.id
        match cascadePubs inj (k + 2) db2 ps with
        | Except.error tr =>
            Except.error (Ev.evDelGamesByPub p.id :: Ev.evDelPub p.id :: tr)
        | Except.ok (db3, k3, tr) =>
            Except.ok (db3, k3, Ev.evDelGamesByPub p.id :: Ev.evDelPub p.id :: tr)

/-! ## Delete cascades (controllers) -/

/-- controller deleteVideoGame (src part_000, lines 215-250).  The
pre-check reads the publications of the video game outside any
transaction and reports not-found when that list is empty; otherwise
BEGIN (command 0), the per-publication loop (commands from 1), the
category links, the video game row, COMMIT.  Any backend error rolls
the transaction back and surfaces as an internal error. -/
def deleteVideoGame (inj : Option Nat) (vgId : Nat) (w : World) : Outcome :=
  let pubs := pubsOfVideoGame w.db vgId
  let readEv := Ev.evRead "publication by video_game_id"
  if pubs.isEmpty then
    { result := Res.notFound, world := w, trace := [readEv] }
  else if inj == some 0 then
    { result := Res.internalError, world := w, trace := [readEv, Ev.evRollback] }
  else
    match cascadePubs inj 1 w.db pubs with
    | Except.error tr =>
        { result := Res.internalError, world := w,
          trace := readEv :: Ev.evBegin :: (tr ++ [Ev.evRollback]) }
    | Except.ok (db1, k, tr) =>
        if inj == some k then
          { result := Res.internalError, world := w,
            trace := readEv :: Ev.evBegin :: (tr ++ [Ev.evRollback]) }
        else
          let db2 := delCatsByVG db1 vgId
          if inj == some (k + 1) then
            { result := Res.internalError, world := w,
              trace := readEv :: Ev.evBegin ::
                (tr ++ [Ev.evDelCatsByVG vgId, Ev.evRollback]) }
          else
            let db3 := delVGById db2 vgId
            if inj == some (k + 2) then
              { result := Res.internalError, world := w,
                trace := readEv :: Ev.evBegin ::
                  (tr ++ [Ev.evDelCatsByVG vgId, Ev.evDelVG vgId, Ev.evRollback]) }
            else
              { result := Res.noContent, world := { w with db := db3 },
                trace := readEv :: Ev.evBegin ::
                  (tr ++ [Ev.evDelCatsByVG vgId, Ev.evDelVG vgId, Ev.evCommit]) }

/-- controller deletePlatform (src part_006, lines 503-540).  BEGIN is
issued first (command 0), then the publications of the platform are
read inside the transaction (command 1), then the per-publication loop
(commands from 2), then the platform row is deleted; a zero
rows-affected count is reported as not-found after a rollback,
otherwise COMMIT and only then the platform's image artifact is
deleted. -/
def deletePlatform (inj : Option Nat) (code : String) (w : World) : Outcome :=
  if inj == some 0 then
    { result := Res.internalError, world := w, trace := [Ev.evRollback] }
  else if inj == some 1 then
    { result := Res.internalError, world := w,
      trace := [Ev.evBegin, Ev.evRollback] }
  else
    let pubs := pubsOfPlatform w.db code
    let readEv := Ev.evRead "publication by platform_code"
    match cascadePubs inj 2 w.db pubs with
    | Except.error tr =>
        { result := Res.internalError, world := w,
          trace := Ev.evBegin :: readEv :: (tr ++ [Ev.evRollback]) }
    | Except.ok (db1, k, tr) =>
        if inj == some k then
          { result := Res.internalError, world := w,
            trace := Ev.evBegin :: readEv :: (tr ++ [Ev.evRollback]) }
        else
          match delPlatformByCode db1 code with
          | (db2, rowCount) =>
            if rowCount == 0 then
              { result := Res.notFound, world := w,
                trace := Ev.evBegin :: readEv ::
                  (tr ++ [Ev.evDelPlatform code, Ev.evRollback]) }
            else if inj == some (k + 1) then
              { result := Res.internalError, world := w,
                trace := Ev.evBegin :: readEv ::
                  (tr ++ [Ev.evDelPlatform code, Ev.evRollback]) }
            else
              { result := Res.noContent,
                world := { db := db2, fs := fsDelete w.fs destFolderPlatform code },
                trace := Ev.evBegin :: readEv ::
                  (tr ++ [Ev.evDelPlatform code, Ev.evCommit,
                          Ev.evImgDelete destFolderPlatform code]) }

/-- controller deleteUser (src API_v1.1/src/v1/controller/user.js,
lines 263-302).  The is_admin policy read happens first; an admin user
is rejected before any transaction is opened.  Otherwise BEGIN, the
games owned by the user are deleted, then the user row; a zero
rows-affected count rolls back and reports not-found, otherwise
COMMIT. -/
def deleteUser (userId : Nat) (w : World) : Outcome :=
  let readEv := Ev.evRead "is_admin by user id"
  if isAdminB w.db userId then
    { result := Res.deleteForbidden, world := w, trace := [readEv] }
  else
    let db1 := delGamesByUser w.db userId
    match delUserById db1 userId with
    | (db2, rowCount) =>
      if rowCount == 0 then
        { result := Res.notFound, world := w,
          trace := [readEv, Ev.evBegin, Ev.evDelGamesByUser userId,
                    Ev.evDelUser userId, Ev.evRollback] }
      else
        { result := Res.noContent, world := { w with db := db2 },
          trace := [readEv, Ev.evBegin, Ev.evDelGamesByUser userId,
                    Ev.evDelUser userId, Ev.evCommit] }

/-! ## Compound create (controller) -/

/-- a new video game as sent to the compound create endpoint -/
structure NewVideoGame where
  name : String
  description : String
  releaseDate : String
  releasePrice : Option Nat
  storePageUrl : Option String
  deriving DecidableEq, Repr

/-- controller createPlatformWithNewVideoGames (src part_006, lines
622-713).  After validation it checks the platform picture and the
picture count, then BEGIN and the platform INSERT (a duplicate code
raises a unique violation, answered as a conflict after rollback).  The
next source statement evaluates `picture.buffer`, but `picture` is an
undefined identifier (as is `videoGamesPictures` inside the loop), so
execution raises a ReferenceError there: the generic handler rolls the
transaction back and reports an internal error, and the success branch
is unreachable. -/
def createPlatformWithNewVideoGames (code descr abbr : String)
    (videoGames : List NewVideoGame) (platformPicture : Option Nat)
    (videoGamesPictures : List Nat) (w : World) : Outcome :=
  if platformPicture.isNone then
    { result := Res.badRequest, world := w, trace := [] }
  else if videoGamesPictures.length != videoGames.length then
    { result := Res.badRequest, world := w, trace := [] }
  else if w.db.platforms.any (fun p => p.code == code) then
    { result := Res.conflict, world := w,
      trace := [Ev.evBegin, Ev.evInsPlatform code, Ev.evRollback] }
  else
    { result := Res.internalError, world := w,
      trace := [Ev.evBegin, Ev.evInsPlatform code, Ev.evRollback] }

/-! ## Partial-update builders -/

/-- JS `slice(0, -n)`: drop the last n characters, implemented over the
character list so that it computes by plain unfolding -/
def sliceSuffix (s : String) (n : Nat) : String :=
  String.mk (s.data.take (s.data.length - n))

/-- decimal rendering of a placeholder index, as interpolated into the
statement text; spelled out for the small indices this code base uses
so that terms reduce by plain unfolding -/
def idxToString : Nat → String
  | 1 => "1" | 2 => "2" | 3 => "3" | 4 => "4" | 5 => "5" | 6 => "6"
  | n => toString n

/-- builder state: query text, parameter list, next placeholder index -/
structure BuildSt where
  query : String
  params : List Value
  index : Nat
  deriving DecidableEq, Repr

/-- append one provided field: `col = $index, ` plus its parameter, as
in the videoGame and genre model builders -/
def pushField (st : BuildSt) (col : String) (v : Value) : BuildSt :=
  { query := st.query ++ col ++ " = $" ++ idxToString st.index ++ ", ",
    params := st.params ++ [v],
    index := st.index + 1 }

/-- VideoGameModel.updateVideoGame (src part_003, lines 85-109): starts
from `UPDATE video_game SET `, appends `name = $i, ` and
`description = $i, ` for the provided fields only, raises
`No values to update` when none is provided, drops the trailing
separator and appends the id predicate. -/
def updateVideoGameStmt (vgId : Nat) (name description : Option String) :
    Except String (String × List Value) :=
  let st0 : BuildSt := { query := "UPDATE video_game SET ", params := [], index := 1 }
  let st1 := match name with
    | some n => pushField st0 "name" (Value.str n)
    | none => st0
  let st2 := match description with
    | some d => pushField st1 "description" (Value.str d)
    | none => st1
  if st2.params.isEmpty then Except.error "No values to update"
  else
    Except.ok (sliceSuffix st2.query 2 ++ " WHERE id = $" ++ idxToString st2.index,
               st2.params ++ [Value.nat vgId])

/-- rows-affected semantics of the built video_game update: the number
of rows matching the id predicate -/
def updateVideoGameExec (db : DB) (vgId : Nat) (name description : Option String) :
    Except String (Nat × DB × List Ev) :=
  match updateVideoGameStmt vgId name description with
  | Except.error e => Except.error e
  | Except.ok (q, _) =>
      let rowCount := db.videoGames.countP (fun v => v.id == vgId)
      let db1 := { db with videoGames := db.videoGames.map (fun v =>
        if v.id == vgId then
          { v with name := name.getD v.name, description := description.getD v.description }
        else v) }
      Except.ok (rowCount, db1, [Ev.evRead q])

/-- controller updateVideoGame (src part_000, lines 165-198): calls the
model builder; the builder's error surfaces through the generic handler
with no statement issued, a zero rows-affected count is reported as
not-found, any other count as no-content. -/
def updateVideoGameCtrl (vgId : Nat) (name description : Option String)
    (db : DB) : Res × DB × List Ev :=
  match updateVideoGameExec db vgId name description with
  | Except.error _ => (Res.internalError, db, [])
  | Except.ok (rowCount, db1, tr) =>
      if rowCount == 0 then (Res.notFound, db, tr)
      else (Res.noContent, db1, tr)

/-- UserDB.updateUser (src part_004, lines 117-141): username and email
are always assigned (`$1`, `$2`); firstname, lastname and
hashed_password are appended only when provided (null means absent);
the trailing separator is dropped and the id predicate appended. -/
def updateUserStmt (userId : Nat) (username email : String)
    (firstname lastname password : Option String) : String × List Value :=
  let st0 : BuildSt :=
    { query := "UPDATE \"user\" SET username = $1 , email = $2 ,",
      params := [Value.str username, Value.str email], index := 3 }
  let st1 := match firstname with
    | some f => pushField st0 "firstname" (Value.str f)
    | none => st0
  let st2 := match lastname with
    | some l => pushField st1 "lastname" (Value.str l)
    | none => st1
  let st3 := match password with
    | some p => pushField st2 "hashed_password" (Value.str p)
    | none => st2
  (sliceSuffix st3.query 2 ++ " WHERE id = $" ++ idxToString st3.index,
   st3.params ++ [Value.nat userId])

/-- number of parameter placeholders in a statement (each placeholder
is introduced by one dollar sign) -/
def dollarCount (q : String) : Nat := q.data.count '$'

/-- the update statement the Partial-Update Builder contract asks for
on the video_game table, by provided-field subset: exactly the provided
columns, placeholders numbered consecutively, the id predicate last -/
def expectedVGQuery : Bool → Bool → String
  | true, false => "UPDATE video_game SET name = $1 WHERE id = $2"
  | false, true => "UPDATE video_game SET description = $1 WHERE id = $2"
  | true, true => "UPDATE video_game SET name = $1, description = $2 WHERE id = $3"
  | false, false => ""

/-- the update statement the Partial-Update Builder contract asks for
on the user table, by provided-optional-field subset: username and
email always, then exactly the provided optional columns, placeholders
numbered consecutively, the id predicate last -/
def expectedUserQuery : Bool → Bool → Bool → String
  | false, false, false =>
      "UPDATE \"user\" SET username = $1 , email = $2 WHERE id = $3"
  | true, false, false =>
      "UPDATE \"user\" SET username = $1 , email = $2 ,firstname = $3 WHERE id = $4"
  | false, true, false =>
      "UPDATE \"user\" SET username = $1 , email = $2 ,lastname = $3 WHERE id = $4"
  | false, false, true =>
      "UPDATE \"user\" SET username = $1 , email = $2 ,hashed_password = $3 WHERE id = $4"
  | true, true, false =>
      "UPDATE \"user\" SET username = $1 , email = $2 ,firstname = $3, lastname = $4 WHERE id = $5"
  | true, false, true =>
      "UPDATE \"user\" SET username = $1 , email = $2 ,firstname = $3, hashed_password = $4 WHERE id = $5"
  | false, true, true =>
      "UPDATE \"user\" SET username = $1 , email = $2 ,lastname = $3, hashed_password = $4 WHERE id = $5"
  | true, true, true =>
      "UPDATE \"user\" SET username = $1 , email = $2 ,firstname = $3, lastname = $4, hashed_password = $5 WHERE id = $6"

/-- whether a column assignment for `col` occurs in the statement -/
def mentionsCol (q col : String) : Bool :=
  decide ((col ++ " = $").data <:+: q.data)

/-! ## Lookup gateway -/

/-- case-insensitive substring match, the list semantics of
`LOWER(name) LIKE LOWER(pattern-with-wildcards)` -/
def nameLike (pat : String) (name : String) : Bool :=
  decide (pat.toLower.data <:+: name.toLower.data)

/-- the WHERE clauses of getVideoGames: exact id match and
case-insensitive substring name match, both optional -/
def matchesVG (idq : Option Nat) (nameq : Option String) (v : VideoGame) : Bool :=
  (match idq with | some i => v.id == i | none => true) &&
  (match nameq with | some s => nameLike s v.name | none => true)

/-- VideoGameModel.getVideoGames (src part_003, lines 12-38) under list
semantics: the optional WHERE clauses filter the table; `LIMIT limit
OFFSET (page-1)*limit` is appended only when page and limit are both
provided, and means drop-offset-then-take-limit; with either absent the
full filtered table is returned in table order (no ORDER BY). -/
def getVideoGamesRows (db : DB) (idq : Option Nat) (nameq : Option String)
    (page limit : Option Nat) : List VideoGame :=
  let filtered := db.videoGames.filter (matchesVG idq nameq)
  match page, limit with
  | some p, some l => (filtered.drop ((p - 1) * l)).take l
  | _, _ => filtered

/-- insert a video game into a list sorted by ascending id -/
def insertById (v : VideoGame) : List VideoGame → List VideoGame
  | [] => [v]
  | x :: xs => if v.id ≤ x.id then v :: x :: xs else x :: insertById v xs

/-- sort by ascending id, the semantics of `ORDER BY id ASC` -/
def sortById (l : List VideoGame) : List VideoGame := l.foldr insertById []

/-- the v2-era getVideoGames (second document of
src/API_v1.1/src/v2/zod/schema/platform.js, lines 51-82) under list
semantics: absent page and limit default to DEFAULT_PAGE and
DEFAULT_LIMIT (their constants file is absent from src, so the defaults
are passed as arguments), the rows are ordered by ascending id, and
`LIMIT $n OFFSET $n+1` with offset (page-1)*limit is always appended. -/
def getVideoGamesRowsV2 (db : DB) (idq : Option Nat) (nameq : Option String)
    (page limit : Option Nat) (defaultPage defaultLimit : Nat) : List VideoGame :=
  let p := page.getD defaultPage
  let l := limit.getD defaultLimit
  let filtered := sortById (db.videoGames.filter (matchesVG idq nameq))
  (filtered.drop ((p - 1) * l)).take l

/-- the statement text built by the v2-era getVideoGames: the LIMIT and
OFFSET clauses are appended unconditionally -/
def getVideoGamesStmtV2 (idq : Option Nat) (nameq : Option String)
    (page limit : Option Nat) (defaultPage defaultLimit : Nat) : String × List Value :=
  let st0 : String × List Value := ("SELECT * FROM video_game", [])
  let condsParams : List (String × Value) :=
    (match idq with | some i => [("id = $", Value.nat i)] | none => []) ++
    (match nameq with
      | some s => [("LOWER(name) LIKE $", Value.str ("%" ++ s.toLower ++ "%"))]
      | none => [])
  let withWhere :=
    match condsParams with
    | [] => st0
    | (c, v) :: [] => (st0.1 ++ " WHERE " ++ c ++ "1", [v])
    | (c1, v1) :: (c2, v2) :: _ =>
        (st0.1 ++ " WHERE " ++ c1 ++ "1 AND " ++ c2 ++ "2", [v1, v2])
  let q1 := withWhere.1 ++ " ORDER BY id ASC"
  let l := limit.getD defaultLimit
  let p := page.getD defaultPage
  let q2 := q1 ++ " LIMIT $" ++ idxToString (withWhere.2.length + 1) ++
    " OFFSET $" ++ idxToString (withWhere.2.length + 2)
  (q2, withWhere.2 ++ [Value.nat l, Value.nat ((p - 1) * l)])

/-! ## Existence gateway -/

/-- UserDB.clientExists (src part_004, lines 77-102): with id, username
and email all null it returns false before any statement is built or
issued; otherwise it builds a count query from the provided filters
(joined by a comma in the source, which is invalid SQL as soon as two
or more filters are present) and compares the count against zero. -/
def clientExists (db : DB) (idq : Option Nat) (username email : Option String) :
    (Except String Bool) × List Ev :=
  match idq, username, email with
  | none, none, none => (Except.ok false, [])
  | _, _, _ =>
    let st0 : String × Nat := ("SELECT count(*) AS no FROM \"user\" WHERE ", 1)
    let st1 := match idq with
      | some _ => (st0.1 ++ "id = $" ++ idxToString st0.2 ++ ", ", st0.2 + 1)
      | none => st0
    let st2 := match username with
      | some _ => (st1.1 ++ "username = $" ++ idxToString st1.2 ++ ", ", st1.2 + 1)
      | none => st1
    let st3 := match email with
      | some _ => (st2.1 ++ "email = $" ++ idxToString st2.2 ++ ", ", st2.2 + 1)
      | none => st2
    let q := sliceSuffix st3.1 2
    if st3.2 ≥ 3 then
      (Except.error "syntax error", [Ev.evRead q])
    else
      let cnt := db.users.countP (fun u =>
        (match idq with | some i => u.id == i | none => true) &&
        (match username with | some s => u.username == s | none => true) &&
        (match email with | some s => u.email == s | none => true))
      (Except.ok (cnt > 0), [Ev.evRead q])

/-! ## Cascade lemmas -/

/-- database reached by a completed per-publication cascade: the games
referencing any of the publications and the publications themselves are
gone, the other tables untouched -/
def cascadeResultDB (db : DB) (ps : List Publication) : DB :=
  { db with
    games := db.games.filter (fun g => !(ps.any (fun p => p.id == g.publicationId))),
    publications := db.publications.filter (fun q => !(ps.any (fun p => p.id == q.id))) }

/-- trace of a completed per-publication cascade -/
def cascadeTrace (ps : List Publication) : List Ev :=
  ps.flatMap (fun p => [Ev.evDelGamesByPub p.id, Ev.evDelPub p.id])

theorem cascadeResultDB_cons (db : DB) (p : Publication) (ps : List Publication) :
    cascadeResultDB (delPubById (delGamesByPub db p.id) p.id) ps =
      cascadeResultDB db (p :: ps) := by
  simp only [cascadeResultDB, delPubById, delGamesByPub, List.filter_filter]
  refine congrArg₂ (fun a b => DB.mk db.videoGames b a db.categoryLinks db.platforms db.users) ?_ ?_
  · refine List.filter_congr ?_
    intro g _
    simp only [List.any_cons, Bool.not_or, bne]
    rw [Bool.and_comm]
    have : (p.id == g.publicationId) = (g.publicationId == p.id) := by
      rcases h : g.publicationId == p.id with _ | _ <;>
        simp_all [BEq.comm]
    rw [this]
  · refine List.filter_congr ?_
    intro q _
    simp only [List.any_cons, Bool.not_or, bne]
    rw [Bool.and_comm]
    have : (p.id == q.id) = (q.id == p.id) := by
      rcases h : q.id == p.id with _ | _ <;> simp_all [BEq.comm]
    rw [this]

theorem cascadePubs_none (ps : List Publication) : ∀ (k : Nat) (db : DB),
    cascadePubs none k db ps =
      Except.ok (cascadeResultDB db ps, k + 2 * ps.length, cascadeTrace ps) := by
  induction ps with
  | nil =>
      intro k db
      simp [cascadePubs, cascadeResultDB, cascadeTrace]
  | cons p ps ih =>
      intro k db
      simp only [cascadePubs, ih, cascadeTrace, List.flatMap_cons]
      rw [cascadeResultDB_cons]
      simp only [List.length_cons]
      refine congrArg Except.ok ?_
      refine congrArg₂ _ rfl (congrArg₂ _ ?_ rfl)
      omega

theorem deleteVideoGame_world_eq (inj : Option Nat) (vgId : Nat) (w : World) :
    (deleteVideoGame inj vgId w).result = Res.noContent ∨
      (deleteVideoGame inj vgId w).world = w := by
  simp only [deleteVideoGame]
  repeat' split
  all_goals simp

theorem deletePlatform_world_eq (inj : Option Nat) (code : String) (w : World) :
    (deletePlatform inj code w).result = Res.noContent ∨
      (deletePlatform inj code w).world = w := by
  simp only [deletePlatform]
  repeat' split
  all_goals simp

theorem none_beq_some {α : Type} [DecidableEq α] (x : α) :
    ((none : Option α) == some x) = false := by
  simp

/-- only per-publication delete statements occur in a cascade-loop trace -/
def cascadeEvOnly (tr : List Ev) : Prop :=
  ∀ e ∈ tr, (∃ n, e = Ev.evDelGamesByPub n) ∨ (∃ n, e = Ev.evDelPub n)

theorem cascadePubs_trace_shape (inj : Option Nat) (ps : List Publication) :
    ∀ (k : Nat) (db : DB),
      (∀ tr, cascadePubs inj k db ps = Except.error tr → cascadeEvOnly tr) ∧
      (∀ db2 k2 tr, cascadePubs inj k db ps = Except.ok (db2, k2, tr) →
        cascadeEvOnly tr) := by
  induction ps with
  | nil =>
      intro k db
      constructor
      · intro tr h
        simp [cascadePubs] at h
      · intro db2 k2 tr h
        simp [cascadePubs] at h
        obtain ⟨-, -, h3⟩ := h
        intro e he
        rw [h3] at he
        simp at he
  | cons p ps ih =>
      intro k db
      constructor
      · intro tr h
        simp only [cascadePubs] at h
        split at h
        · rw [Except.error.injEq] at h
          intro e he
          rw [← h] at he
          simp at he
        · split at h
          · rw [Except.error.injEq] at h
            intro e he
            rw [← h] at he
            simp at he
            left
            exact ⟨p.id, he⟩
          · split at h
            · next heq =>
                rw [Except.error.injEq] at h
                intro e he
                rw [← h] at he
                simp at he
                rcases he with he | he | he
                · exact Or.inl ⟨p.id, he⟩
                · exact Or.inr ⟨p.id, he⟩
                · exact (ih _ _).1 _ heq e he
            · simp at h
      · intro db2 k2 tr h
        simp only [cascadePubs] at h
        split at h
        · simp at h
        · split at h
          · simp at h
          · split at h
            · simp at h
            · next heq =>
                rw [Except.ok.injEq, Prod.mk.injEq, Prod.mk.injEq] at h
                obtain ⟨-, -, h3⟩ := h
                intro e he
                rw [← h3] at he
                simp at he
                rcases he with he | he | he
                · exact Or.inl ⟨p.id, he⟩
                · exact Or.inr ⟨p.id, he⟩
                · exact (ih _ _).2 _ _ _ heq e he

theorem cascadeEvOnly_no_commit {tr : List Ev} (h : cascadeEvOnly tr) :
    Ev.evCommit ∉ tr := by
  intro hmem
  rcases h _ hmem with ⟨n, hn⟩ | ⟨n, hn⟩ <;> simp at hn

theorem cascadeEvOnly_no_imgDelete {tr : List Ev} (h : cascadeEvOnly tr)
    (f k : String) : Ev.evImgDelete f k ∉ tr := by
  intro hmem
  rcases h _ hmem with ⟨n, hn⟩ | ⟨n, hn⟩ <;> simp at hn

theorem cascadeEvOnly_no_begin {tr : List Ev} (h : cascadeEvOnly tr) :
    Ev.evBegin ∉ tr := by
  intro hmem
  rcases h _ hmem with ⟨n, hn⟩ | ⟨n, hn⟩ <;> simp at hn

/-! ## Referential-integrity lemmas -/

theorem pubsOfVideoGame_nil_of_absent (db : DB) (vgId : Nat)
    (hfk : fkConsistentB db = true) (habs : videoGameExistsB db vgId = false) :
    pubsOfVideoGame db vgId = [] := by
  unfold pubsOfVideoGame
  rw [List.filter_eq_nil_iff]
  intro p hp hbeq
  simp only [beq_iff_eq] at hbeq
  unfold fkConsistentB at hfk
  simp only [Bool.and_eq_true, List.all_eq_true] at hfk
  have := hfk.1 p hp
  simp only [Bool.and_eq_true] at this
  rw [hbeq] at this
  rw [this.1] at habs
  exact Bool.noConfusion habs

theorem pubsOfPlatform_nil_of_absent (db : DB) (code : String)
    (hfk : fkConsistentB db = true) (habs : platformExistsB db code = false) :
    pubsOfPlatform db code = [] := by
  unfold pubsOfPlatform
  rw [List.filter_eq_nil_iff]
  intro p hp hbeq
  simp only [beq_iff_eq] at hbeq
  unfold fkConsistentB at hfk
  simp only [Bool.and_eq_true, List.all_eq_true] at hfk
  have := hfk.1 p hp
  simp only [Bool.and_eq_true] at this
  rw [hbeq] at this
  rw [this.2] at habs
  exact Bool.noConfusion habs

theorem platformCount_zero_of_absent (db : DB) (code : String)
    (habs : platformExistsB db code = false) :
    db.platforms.countP (fun p => p.code == code) = 0 := by
  rw [List.countP_eq_zero]
  intro p hp hbeq
  unfold platformExistsB at habs
  rw [List.any_eq_false] at habs
  exact habs p hp hbeq

/-! ## Sample fixtures -/

/-- a small consistent store: one video game with one publication on one
platform, one game row owned by user 5, one category link, a non-admin
user 5 and an admin user 6 -/
def sampleDB : DB :=
  { videoGames := [⟨1, "Solo", "demo"⟩],
    publications := [⟨10, "PC", 1⟩],
    games := [⟨5, 10⟩],
    categoryLinks := [⟨3, 1⟩],
    platforms := [⟨"PC", "computer", "pc"⟩],
    users := [⟨5, "u", "u at mail", false⟩, ⟨6, "boss", "boss at mail", true⟩] }

/-- the sample store plus the platform's image artifact -/
def sampleWorld : World := ⟨sampleDB, ⟨[(destFolderPlatform, "PC")]⟩⟩

/-- a store holding exactly one video game and nothing else -/
def vgOnlyWorld : World := ⟨⟨[⟨1, "Solo", "demo"⟩], [], [], [], [], []⟩, ⟨[]⟩⟩

/-- the empty store -/
def emptyWorld : World := ⟨⟨[], [], [], [], [], []⟩, ⟨[]⟩⟩

/-! ## Success-path equation for the video game cascade -/

theorem deleteVideoGame_success_eq (w : World) (vgId : Nat)
    (hpubs : pubsOfVideoGame w.db vgId ≠ []) :
    deleteVideoGame none vgId w =
      { result := Res.noContent,
        world := World.mk
          (delVGById (delCatsByVG (cascadeResultDB w.db (pubsOfVideoGame w.db vgId)) vgId) vgId)
          w.fs,
        trace := Ev.evRead "publication by video_game_id" :: Ev.evBegin ::
          (cascadeTrace (pubsOfVideoGame w.db vgId) ++
            [Ev.evDelCatsByVG vgId, Ev.evDelVG vgId, Ev.evCommit]) } := by
  simp only [deleteVideoGame]
  rw [cascadePubs_none]
  simp [List.isEmpty_iff, hpubs]

theorem cascadeResultDB_pubs_all (db : DB) (vgId : Nat) :
    ((cascadeResultDB db (pubsOfVideoGame db vgId)).publications.all
      (fun p => p.videoGameId != vgId)) = true := by
  simp only [cascadeResultDB, List.all_eq_true]
  intro p hp
  rw [List.mem_filter] at hp
  obtain ⟨hmem, hflt⟩ := hp
  simp only [Bool.not_eq_true', List.any_eq_false] at hflt
  rcases hvg : p.videoGameId == vgId with _ | _
  · simp [bne, hvg]
  · exfalso
    have hpmem : p ∈ pubsOfVideoGame db vgId := by
      simp [pubsOfVideoGame, List.mem_filter, hmem, hvg]
    have := hflt p hpmem
    simp at this

theorem cascadeResultDB_games_all (db : DB) (ps : List Publication) :
    ((cascadeResultDB db ps).games.all
      (fun g => !(ps.any (fun p => p.id == g.publicationId)))) = true := by
  simp only [cascadeResultDB, List.all_eq_true]
  intro g hg
  rw [List.mem_filter] at hg
  exact hg.2

/-! ## Claim theorems -/

/-- C1.  The claim says a createPlatformWithNewVideoGames request can
succeed, creating 1 Platform + N VideoGame + N Publication rows and N+1
artifacts.  On the source as written this is impossible: the controller
reads the undefined identifiers `picture` and `videoGamesPictures`, so
every request that reaches the transaction raises a ReferenceError,
rolls back, and leaves the world untouched; no call ever reports
created.  This theorem evaluates the embedded controller: for every
input and every starting world, the final world equals the initial one
and the result is never `created`. -/
theorem claim_C1_compound_create_never_commits (code descr abbr : String)
    (vgs : List NewVideoGame) (pp : Option Nat) (vgPics : List Nat) (w : World) :
    (createPlatformWithNewVideoGames code descr abbr vgs pp vgPics w).world = w ∧
    (createPlatformWithNewVideoGames code descr abbr vgs pp vgPics w).result ≠
      Res.created := by
  simp only [createPlatformWithNewVideoGames]
  repeat' split
  all_goals simp

/-- C2: for both delete cascades, any injected backend failure at any
transactional command (BEGIN, each cascade statement, the root delete,
COMMIT itself) — and any application-level failure such as a mid-cascade
not-found — yields a non-success result whose final world equals the
pre-call world exactly: every statement issued so far is reverted. -/
theorem claim_C2_failure_restores_state (inj : Option Nat) (vgId : Nat)
    (code : String) (w : World) :
    ((deleteVideoGame inj vgId w).result ≠ Res.noContent →
      (deleteVideoGame inj vgId w).world = w) ∧
    ((deletePlatform inj code w).result ≠ Res.noContent →
      (deletePlatform inj code w).world = w) := by
  constructor
  · intro h
    rcases deleteVideoGame_world_eq inj vgId w with h1 | h1
    · exact absurd h1 h
    · exact h1
  · intro h
    rcases deletePlatform_world_eq inj code w with h1 | h1
    · exact absurd h1 h
    · exact h1

/-- C2 witness: in the sample world, injecting a backend failure at
command 1 (the first cascade statement) of deleteVideoGame and at
command 5 (COMMIT) of deletePlatform gives non-success results, and the
theorem then yields the unchanged world. -/
theorem claim_C2_witness :
    (deleteVideoGame (some 1) 1 sampleWorld).world = sampleWorld ∧
    (deletePlatform (some 5) "PC" sampleWorld).world = sampleWorld ∧
    (deleteVideoGame (some 1) 1 sampleWorld).result = Res.internalError ∧
    (deletePlatform (some 5) "PC" sampleWorld).result = Res.internalError := by
  refine ⟨?_, ?_, by decide, by decide⟩
  · exact (claim_C2_failure_restores_state (some 1) 1 "PC" sampleWorld).1 (by decide)
  · exact (claim_C2_failure_restores_state (some 5) 1 "PC" sampleWorld).2 (by decide)

/-- C3 (amended): deleting an existing VideoGame that has at least one
Publication runs, inside one transaction, the per-publication loop
(each publication's Games deleted immediately before that publication),
then the Category links, then the VideoGame row, then COMMIT; on
success no Publication of the VideoGame, no Game referencing one of
those Publications, no Category link and not the VideoGame row itself
remain, and the platform and user tables are untouched.  (The
unamended claim also covered N = 0: the source then reports not-found
and deletes nothing — see the counterexample.) -/
theorem claim_C3_videoGame_cascade (w : World) (vgId : Nat)
    (hvg : videoGameExistsB w.db vgId = true)
    (hpubs : pubsOfVideoGame w.db vgId ≠ []) :
    (deleteVideoGame none vgId w).result = Res.noContent ∧
    (deleteVideoGame none vgId w).trace =
      Ev.evRead "publication by video_game_id" :: Ev.evBegin ::
        (cascadeTrace (pubsOfVideoGame w.db vgId) ++
          [Ev.evDelCatsByVG vgId, Ev.evDelVG vgId, Ev.evCommit]) ∧
    (deleteVideoGame none vgId w).world.db.videoGames =
      w.db.videoGames.filter (fun v => v.id != vgId) ∧
    (deleteVideoGame none vgId w).world.db.categoryLinks =
      w.db.categoryLinks.filter (fun c => c.videoGameId != vgId) ∧
    ((deleteVideoGame none vgId w).world.db.publications.all
      (fun p => p.videoGameId != vgId)) = true ∧
    ((deleteVideoGame none vgId w).world.db.games.all
      (fun g => !((pubsOfVideoGame w.db vgId).any
        (fun p => p.id == g.publicationId)))) = true ∧
    (deleteVideoGame none vgId w).world.db.platforms = w.db.platforms ∧
    (deleteVideoGame none vgId w).world.db.users = w.db.users ∧
    (deleteVideoGame none vgId w).world.fs = w.fs := by
  rw [deleteVideoGame_success_eq w vgId hpubs]
  refine ⟨rfl, rfl, ?_, ?_, ?_, ?_, rfl, rfl, rfl⟩
  · rfl
  · rfl
  · have := cascadeResultDB_pubs_all w.db vgId
    simpa [delVGById, delCatsByVG] using this
  · have := cascadeResultDB_games_all w.db (pubsOfVideoGame w.db vgId)
    simpa [delVGById, delCatsByVG] using this

/-- C3 counterexample: the claim as stated quantifies over every
existing VideoGame.  For a VideoGame with zero Publications the source's
pre-check (which looks at publications, not at the video_game table)
reports not-found and deletes nothing, so the row survives its own
delete. -/
theorem claim_C3_counterexample :
    videoGameExistsB vgOnlyWorld.db 1 = true ∧
    (deleteVideoGame none 1 vgOnlyWorld).result = Res.notFound ∧
    (deleteVideoGame none 1 vgOnlyWorld).world.db.videoGames ≠ [] := by
  decide

/-- C3 witness: the amended theorem applied to the sample world, whose
video game 1 has one publication carrying one game row. -/
theorem claim_C3_witness :
    (deleteVideoGame none 1 sampleWorld).result = Res.noContent ∧
    ((deleteVideoGame none 1 sampleWorld).world.db.publications.all
      (fun p => p.videoGameId != 1)) = true ∧
    (deleteVideoGame none 1 sampleWorld).world.db.users = sampleWorld.db.users := by
  have h := claim_C3_videoGame_cascade sampleWorld 1 (by decide) (by decide)
  exact ⟨h.1, h.2.2.2.2.1, h.2.2.2.2.2.2.2.1⟩

/-- C4 (amended): on a referentially consistent store whose root entity
is absent, both cascades fail with not-found and leave the world
untouched; deleteVideoGame short-circuits before any transaction is
opened, while deletePlatform only discovers the missing root
mid-transaction (zero rows affected by its delete statement) and rolls
that transaction back, so a transaction is opened there.  (The
unamended claim asserted that no transaction is opened for either — see
the counterexample.) -/
theorem claim_C4_notfound_guard (w : World) (vgId : Nat) (code : String)
    (hfk : fkConsistentB w.db = true) :
    (videoGameExistsB w.db vgId = false →
      (deleteVideoGame none vgId w).result = Res.notFound ∧
      (deleteVideoGame none vgId w).world = w ∧
      Ev.evBegin ∉ (deleteVideoGame none vgId w).trace) ∧
    (platformExistsB w.db code = false →
      (deletePlatform none code w).result = Res.notFound ∧
      (deletePlatform none code w).world = w ∧
      Ev.evBegin ∈ (deletePlatform none code w).trace ∧
      Ev.evRollback ∈ (deletePlatform none code w).trace) := by
  constructor
  · intro habs
    have hnil := pubsOfVideoGame_nil_of_absent w.db vgId hfk habs
    simp [deleteVideoGame, hnil]
  · intro habs
    have hnil := pubsOfPlatform_nil_of_absent w.db code hfk habs
    have hcnt := platformCount_zero_of_absent w.db code habs
    simp [deletePlatform, hnil, cascadePubs, delPlatformByCode, hcnt]

/-- C4 counterexample: deleting an absent platform on the empty store
does fail with not-found, but the trace contains BEGIN: a transaction
is opened, contradicting the claim's "no transaction is opened". -/
theorem claim_C4_counterexample :
    (deletePlatform none "X" emptyWorld).result = Res.notFound ∧
    Ev.evBegin ∈ (deletePlatform none "X" emptyWorld).trace := by
  decide

/-- C4 witness: the amended theorem applied to the empty store with an
absent video game id and an absent platform code. -/
theorem claim_C4_witness :
    (deleteVideoGame none 7 emptyWorld).result = Res.notFound ∧
    Ev.evBegin ∉ (deleteVideoGame none 7 emptyWorld).trace ∧
    (deletePlatform none "X" emptyWorld).world = emptyWorld := by
  have h := claim_C4_notfound_guard emptyWorld 7 "X" (by decide)
  have h1 := h.1 (by decide)
  have h2 := h.2 (by decide)
  exact ⟨h1.1, h1.2.2, h2.2.1⟩

/-- C5: deletePlatform removes the platform's image artifact if and
only if the database cascade committed.  On success the filesystem
equals the pre-call filesystem minus the platform's artifact and the
trace ends with COMMIT immediately followed by the artifact deletion
(the deletion never precedes the commit); on any failure — including a
forced COMMIT failure — the whole world (artifact included) is
untouched and neither a COMMIT nor any artifact deletion appears in the
trace. -/
theorem claim_C5_artifact_iff_commit (inj : Option Nat) (code : String) (w : World) :
    ((deletePlatform inj code w).result = Res.noContent →
      (deletePlatform inj code w).world.fs = fsDelete w.fs destFolderPlatform code ∧
      ∃ t, (deletePlatform inj code w).trace =
        t ++ [Ev.evCommit, Ev.evImgDelete destFolderPlatform code]) ∧
    ((deletePlatform inj code w).result ≠ Res.noContent →
      (deletePlatform inj code w).world = w ∧
      Ev.evCommit ∉ (deletePlatform inj code w).trace ∧
      ∀ f k2, Ev.evImgDelete f k2 ∉ (deletePlatform inj code w).trace) := by
  simp only [deletePlatform]
  split
  · refine ⟨by simp, fun _ => ⟨rfl, by simp, by simp⟩⟩
  · split
    · refine ⟨by simp, fun _ => ⟨rfl, by simp, by simp⟩⟩
    · split
      · next tr heq =>
          have hshape := (cascadePubs_trace_shape inj (pubsOfPlatform w.db code) 2 w.db).1 tr heq
          refine ⟨by simp, fun _ => ⟨rfl, ?_, ?_⟩⟩
          · simp only [List.mem_cons, List.mem_append, List.mem_singleton]
            rintro (h | h | h | h) <;> simp_all
            exact cascadeEvOnly_no_commit hshape h
          · intro f k2
            simp only [List.mem_cons, List.mem_append, List.mem_singleton]
            rintro (h | h | h | h) <;> simp_all
            exact cascadeEvOnly_no_imgDelete hshape f k2 h
      · next db1 k tr heq =>
          have hshape := (cascadePubs_trace_shape inj (pubsOfPlatform w.db code) 2 w.db).2 db1 k tr heq
          split
          · refine ⟨by simp, fun _ => ⟨rfl, ?_, ?_⟩⟩
            · simp only [List.mem_cons, List.mem_append, List.mem_singleton]
              rintro (h | h | h | h) <;> simp_all
              exact cascadeEvOnly_no_commit hshape h
            · intro f k2
              simp only [List.mem_cons, List.mem_append, List.mem_singleton]
              rintro (h | h | h | h) <;> simp_all
              exact cascadeEvOnly_no_imgDelete hshape f k2 h
          · split
            · refine ⟨by simp, fun _ => ⟨rfl, ?_, ?_⟩⟩
              · simp only [List.mem_cons, List.mem_append, List.mem_singleton]
                rintro (h | h | h | h | h) <;> simp_all
                exact cascadeEvOnly_no_commit hshape h
              · intro f k2
                simp only [List.mem_cons, List.mem_append, List.mem_singleton]
                rintro (h | h | h | h | h) <;> simp_all
                exact cascadeEvOnly_no_imgDelete hshape f k2 h
            · split
              · refine ⟨by simp, fun _ => ⟨rfl, ?_, ?_⟩⟩
                · simp only [List.mem_cons, List.mem_append, List.mem_singleton]
                  rintro (h | h | h | h | h) <;> simp_all
                  exact cascadeEvOnly_no_commit hshape h
                · intro f k2
                  simp only [List.mem_cons, List.mem_append, List.mem_singleton]
                  rintro (h | h | h | h | h) <;> simp_all
                  exact cascadeEvOnly_no_imgDelete hshape f k2 h
              · refine ⟨fun _ => ⟨rfl, ?_⟩, by simp⟩
                refine ⟨Ev.evBegin :: Ev.evRead "publication by platform_code" ::
                  (tr ++ [Ev.evDelPlatform code]), ?_⟩
                simp

/-- C5 witness: in the sample world the platform PC exists with its
artifact; the uninjected delete commits and the theorem yields the
filesystem minus the artifact, while a failure injected at COMMIT
(command 5) leaves the world, artifact included, untouched. -/
theorem claim_C5_witness :
    (deletePlatform none "PC" sampleWorld).world.fs =
      fsDelete sampleWorld.fs destFolderPlatform "PC" ∧
    (deletePlatform (some 5) "PC" sampleWorld).world = sampleWorld := by
  constructor
  · exact ((claim_C5_artifact_iff_commit none "PC" sampleWorld).1 (by decide)).1
  · exact ((claim_C5_artifact_iff_commit (some 5) "PC" sampleWorld).2 (by decide)).1

/-- C9: deleting a user whose is_admin flag is set always fails with
DeleteForbidden; the only backend interaction is the single is_admin
policy read (no transaction is opened, no statement is issued, the
world is untouched), regardless of the Game rows the user owns.
Deleting an existing non-admin user succeeds and cascades only through
the Game rows owned by that user: its games and its user row are
removed, every other table and the filesystem are untouched. -/
theorem claim_C9_admin_delete_guard (w : World) (uid : Nat) :
    (isAdminB w.db uid = true →
      deleteUser uid w =
        { result := Res.deleteForbidden, world := w,
          trace := [Ev.evRead "is_admin by user id"] }) ∧
    (isAdminB w.db uid = false → userExistsB w.db uid = true →
      (deleteUser uid w).result = Res.noContent ∧
      (deleteUser uid w).world.db.games =
        w.db.games.filter (fun g => g.userId != uid) ∧
      (deleteUser uid w).world.db.users =
        w.db.users.filter (fun u => u.id != uid) ∧
      (deleteUser uid w).world.db.videoGames = w.db.videoGames ∧
      (deleteUser uid w).world.db.publications = w.db.publications ∧
      (deleteUser uid w).world.db.categoryLinks = w.db.categoryLinks ∧
      (deleteUser uid w).world.db.platforms = w.db.platforms ∧
      (deleteUser uid w).world.fs = w.fs) := by
  constructor
  · intro h
    simp [deleteUser, h]
  · intro h hex
    have hcnt : w.db.users.countP (fun u => u.id == uid) ≠ 0 := by
      rw [userExistsB, List.any_eq_true] at hex
      obtain ⟨u, hu, hequ⟩ := hex
      have hpos : 0 < w.db.users.countP (fun u => u.id == uid) :=
        List.countP_pos_iff.mpr ⟨u, hu, hequ⟩
      omega
    simp [deleteUser, h, delGamesByUser, delUserById, hcnt]

/-- C9 witness: user 6 of the sample world is an admin and its delete
is refused with the world untouched; user 5 is a plain user owning one
game and its delete removes exactly that game row and the user row. -/
theorem claim_C9_witness :
    deleteUser 6 sampleWorld =
      { result := Res.deleteForbidden, world := sampleWorld,
        trace := [Ev.evRead "is_admin by user id"] } ∧
    (deleteUser 5 sampleWorld).result = Res.noContent ∧
    (deleteUser 5 sampleWorld).world.db.games = [] := by
  have h1 := (claim_C9_admin_delete_guard sampleWorld 6).1 (by decide)
  have h2 := (claim_C9_admin_delete_guard sampleWorld 5).2 (by decide) (by decide)
  refine ⟨h1, h2.1, ?_⟩
  rw [h2.2.1]
  decide

/-- C6: updating a video game with zero provided fields fails with the
builder's `No values to update` error (the NoFieldsToUpdate taxonomy
value) before any statement is issued: the statement builder returns
the error instead of a statement, the execution layer performs no I/O
(it has an empty trace), and the store is untouched; the controller
surfaces the failure without ever reaching the backend. -/
theorem claim_C6_empty_update_no_io (db : DB) (vgId : Nat) :
    updateVideoGameStmt vgId none none = Except.error "No values to update" ∧
    updateVideoGameExec db vgId none none =
      Except.error "No values to update" ∧
    updateVideoGameCtrl vgId none none db = (Res.internalError, db, []) :=
  ⟨rfl, rfl, rfl⟩

/-- the rows-affected count of the built video_game update is the
number of rows matching the id predicate, and the controller maps zero
to not-found and any other count to no-content -/
theorem updateVideoGameCtrl_rowcount (db : DB) (vgId : Nat)
    (name description : Option String)
    (h : name.isSome ∨ description.isSome) :
    ((updateVideoGameCtrl vgId name description db).1 = Res.notFound ↔
      db.videoGames.countP (fun v => v.id == vgId) = 0) ∧
    (db.videoGames.countP (fun v => v.id == vgId) ≠ 0 →
      (updateVideoGameCtrl vgId name description db).1 = Res.noContent) := by
  rcases name with _ | n <;> rcases description with _ | d
  · exact absurd h (by simp)
  all_goals
    by_cases hc : db.videoGames.countP (fun v => v.id == vgId) = 0 <;>
      simp [updateVideoGameCtrl, updateVideoGameExec, updateVideoGameStmt,
        pushField, hc]

set_option maxRecDepth 8000 in
/-- lock-step facts for the video_game partial-update builder -/
theorem updateVideoGameStmt_lockstep (vgId : Nat) (name description : Option String)
    (h : name.isSome ∨ description.isSome) :
    updateVideoGameStmt vgId name description =
      Except.ok (expectedVGQuery name.isSome description.isSome,
        (name.map Value.str).toList ++ (description.map Value.str).toList ++
          [Value.nat vgId]) ∧
    dollarCount (expectedVGQuery name.isSome description.isSome) =
      ((name.map Value.str).toList ++ (description.map Value.str).toList ++
        [Value.nat vgId]).length ∧
    mentionsCol (expectedVGQuery name.isSome description.isSome) "name" =
      name.isSome ∧
    mentionsCol (expectedVGQuery name.isSome description.isSome) "description" =
      description.isSome := by
  rcases name with _ | n <;> rcases description with _ | d
  · exact absurd h (by simp)
  all_goals
    exact ⟨rfl, by rfl, by rfl, by rfl⟩

set_option maxRecDepth 8000 in
/-- lock-step facts for the user partial-update builder -/
theorem updateUserStmt_lockstep (userId : Nat) (username email : String)
    (firstname lastname password : Option String) :
    updateUserStmt userId username email firstname lastname password =
      (expectedUserQuery firstname.isSome lastname.isSome password.isSome,
        [Value.str username, Value.str email] ++
          (firstname.map Value.str).toList ++ (lastname.map Value.str).toList ++
          (password.map Value.str).toList ++ [Value.nat userId]) ∧
    dollarCount (expectedUserQuery firstname.isSome lastname.isSome password.isSome) =
      ([Value.str username, Value.str email] ++
        (firstname.map Value.str).toList ++ (lastname.map Value.str).toList ++
        (password.map Value.str).toList ++ [Value.nat userId]).length ∧
    mentionsCol (expectedUserQuery firstname.isSome lastname.isSome password.isSome)
      "firstname" = firstname.isSome ∧
    mentionsCol (expectedUserQuery firstname.isSome lastname.isSome password.isSome)
      "lastname" = lastname.isSome ∧
    mentionsCol (expectedUserQuery firstname.isSome lastname.isSome password.isSome)
      "hashed_password" = password.isSome := by
  rcases firstname with _ | f <;> rcases lastname with _ | l <;>
    rcases password with _ | p
  all_goals
    exact ⟨rfl, by rfl, by rfl, by rfl, by rfl⟩

/-- C7: for every subset of provided fields, the video game and user
partial-update builders produce exactly the statement the contract
describes — the provided columns only (each present in the statement
iff its field is provided), placeholders numbered consecutively with
the parameter list in lock-step (one dollar placeholder per parameter),
and the single identifier predicate last — and the backend
rows-affected count reaches the caller unchanged, zero meaning
not-found. -/
theorem claim_C7_partial_update_lockstep (vgId userId : Nat)
    (name description : Option String) (username email : String)
    (firstname lastname password : Option String) (db : DB)
    (h : name.isSome ∨ description.isSome) :
    updateVideoGameStmt vgId name description =
      Except.ok (expectedVGQuery name.isSome description.isSome,
        (name.map Value.str).toList ++ (description.map Value.str).toList ++
          [Value.nat vgId]) ∧
    dollarCount (expectedVGQuery name.isSome description.isSome) =
      ((name.map Value.str).toList ++ (description.map Value.str).toList ++
        [Value.nat vgId]).length ∧
    mentionsCol (expectedVGQuery name.isSome description.isSome) "name" =
      name.isSome ∧
    mentionsCol (expectedVGQuery name.isSome description.isSome) "description" =
      description.isSome ∧
    updateUserStmt userId username email firstname lastname password =
      (expectedUserQuery firstname.isSome lastname.isSome password.isSome,
        [Value.str username, Value.str email] ++
          (firstname.map Value.str).toList ++ (lastname.map Value.str).toList ++
          (password.map Value.str).toList ++ [Value.nat userId]) ∧
    dollarCount (expectedUserQuery firstname.isSome lastname.isSome password.isSome) =
      ([Value.str username, Value.str email] ++
        (firstname.map Value.str).toList ++ (lastname.map Value.str).toList ++
        (password.map Value.str).toList ++ [Value.nat userId]).length ∧
    mentionsCol (expectedUserQuery firstname.isSome lastname.isSome password.isSome)
      "firstname" = firstname.isSome ∧
    mentionsCol (expectedUserQuery firstname.isSome lastname.isSome password.isSome)
      "lastname" = lastname.isSome ∧
    mentionsCol (expectedUserQuery firstname.isSome lastname.isSome password.isSome)
      "hashed_password" = password.isSome ∧
    ((updateVideoGameCtrl vgId name description db).1 = Res.notFound ↔
      db.videoGames.countP (fun v => v.id == vgId) = 0) := by
  have hv := updateVideoGameStmt_lockstep vgId name description h
  have hu := updateUserStmt_lockstep userId username email firstname lastname password
  have h10 := (updateVideoGameCtrl_rowcount db vgId name description h).1
  exact ⟨hv.1, hv.2.1, hv.2.2.1, hv.2.2.2, hu.1, hu.2.1, hu.2.2.1,
    hu.2.2.2.1, hu.2.2.2.2, h10⟩

/-- C7 witness: the theorem applied at a concrete single-field video
game update against the sample store. -/
theorem claim_C7_witness :
    updateVideoGameStmt 7 (some "Zelda") none =
      Except.ok (expectedVGQuery (some "Zelda").isSome
          (none : Option String).isSome,
        ((some "Zelda").map Value.str).toList ++
          ((none : Option String).map Value.str).toList ++ [Value.nat 7]) ∧
    ((updateVideoGameCtrl 7 (some "Zelda") none sampleDB).1 = Res.notFound ↔
      sampleDB.videoGames.countP (fun v => v.id == 7) = 0) := by
  have h := claim_C7_partial_update_lockstep 7 9 (some "Zelda") none "u" "e"
    none none none sampleDB (by decide)
  exact ⟨h.1, h.2.2.2.2.2.2.2.2.2⟩

/-! ## Lookup fixtures and pagination claims -/

/-- a video game row with id n named after it -/
def mkVG (n : Nat) : VideoGame := ⟨n, "g" ++ toString n, ""⟩

/-- a store of 25 video games with ids 1..25 in ascending order -/
def db25 : DB := ⟨(List.range 25).map (fun k => mkVG (k + 1)), [], [], [], [], []⟩

/-- whether the statement text carries a LIMIT clause -/
def hasLimitClause (q : String) : Bool :=
  decide (" LIMIT $".data <:+: q.data)

set_option maxRecDepth 8000 in
/-- C8 (amended): in the part_003 lookup, with page and limit both
provided the returned rows are the filtered table after dropping
(page-1)*limit rows and taking limit — over 25 id-ascending rows page 2
with limit 10 returns rows 11..20, page 3 rows 21..25, page 4 the empty
list, not an error — and with either absent the full filtered table is
returned with no pagination clause.  In the v2-era lookup, however,
absent page and limit are replaced by DEFAULT_PAGE and DEFAULT_LIMIT
and a LIMIT/OFFSET clause is always appended, so the full result set is
not guaranteed there.  (The unamended claim asserted the no-pagination
behaviour for both — see the counterexample.) -/
theorem claim_C8_pagination (db : DB) (idq : Option Nat) (nameq : Option String)
    (p l dp dl : Nat) :
    getVideoGamesRows db idq nameq (some p) (some l) =
      ((db.videoGames.filter (matchesVG idq nameq)).drop ((p - 1) * l)).take l ∧
    getVideoGamesRows db idq nameq none none =
      db.videoGames.filter (matchesVG idq nameq) ∧
    getVideoGamesRows db idq nameq (some p) none =
      db.videoGames.filter (matchesVG idq nameq) ∧
    getVideoGamesRows db idq nameq none (some l) =
      db.videoGames.filter (matchesVG idq nameq) ∧
    getVideoGamesRows db25 none none (some 2) (some 10) =
      (List.range 10).map (fun k => mkVG (k + 11)) ∧
    getVideoGamesRows db25 none none (some 3) (some 10) =
      (List.range 5).map (fun k => mkVG (k + 21)) ∧
    getVideoGamesRows db25 none none (some 4) (some 10) = [] ∧
    getVideoGamesRowsV2 db idq nameq none none dp dl =
      ((sortById (db.videoGames.filter (matchesVG idq nameq))).drop
        ((dp - 1) * dl)).take dl ∧
    (∀ page limit : Option Nat,
      hasLimitClause (getVideoGamesStmtV2 idq nameq page limit dp dl).1 = true) := by
  refine ⟨rfl, rfl, rfl, rfl, by decide, by decide, by decide, rfl, ?_⟩
  intro page limit
  rcases idq with _ | i <;> rcases nameq with _ | nm <;> rfl

set_option maxRecDepth 8000 in
/-- C8 counterexample: in the v2-era lookup with page and limit both
absent, the built statement still carries a LIMIT/OFFSET clause and,
over the 25-row store with defaults page 1 / limit 10, the returned
rows are not the full result set — refuting the claim's "no pagination
clause is applied and the full result set is returned". -/
theorem claim_C8_counterexample :
    hasLimitClause (getVideoGamesStmtV2 none none none none 1 50).1 = true ∧
    (getVideoGamesStmtV2 none none none none 1 50).1 =
      "SELECT * FROM video_game ORDER BY id ASC LIMIT $1 OFFSET $2" ∧
    getVideoGamesRowsV2 db25 none none none none 1 10 ≠
      db25.videoGames.filter (matchesVG none none) := by
  decide

/-- C10: the user existence check called with id, username and email
all null short-circuits to false before building or issuing any
statement: the result is an ordinary false (never an error) and the
trace is empty, so no database I/O happens. -/
theorem claim_C10_clientExists_all_null (db : DB) :
    clientExists db none none none = (Except.ok false, []) := rfl

end Catalog